import Mathlib

/-!
A shallow embedding of the alert-ingestion and context-assembly pipeline of
`server.js` (an Express + SQLite incident-report service), together with
theorems checking the specification claims against it.

Modelling conventions:
* `created_at` ISO-8601 UTC strings compare lexicographically exactly as the
  instants they denote, so timestamps are modelled as `Nat` and the SQL
  string comparisons become `≤` on `Nat`.
* Each SQLite table is a `List` of row structures; `INSERT` appends at the
  end (ascending rowid), `DELETE` without a filter empties the list.
* The two fallible `db.run` inserts of the submit route and the two deletes
  of the clear route take explicit success flags, so the error-handling
  branches of the callbacks become reachable branches of the model.
* JS `String.prototype.includes` is substring containment, embedded as
  `List.IsInfix` on the character lists.
-/

namespace GdrfaDemo

/-- JS substring containment: `s.includes(pat)`. -/
def strContains (s pat : String) : Prop := pat.data <:+: s.data

instance (s pat : String) : Decidable (strContains s pat) :=
  List.decidableInfix pat.data s.data

/-- JS `text.toLowerCase()`, character by character. -/
def lowerStr (s : String) : String := String.mk (s.data.map Char.toLower)

/-- One entry of the `SCENARIOS` configuration object in `server.js`:
storage table name, display label and fixed acknowledgement message. -/
structure ScenarioCfg where
  table : String
  label : String
  fixedMessage : String
deriving DecidableEq

/-- The `"tempered-id"` entry of `SCENARIOS`. -/
def temperedIdCfg : ScenarioCfg :=
  { table := "tempered_id"
    label := "Tampered ID"
    fixedMessage := "Alert received: A tampered ID was reported. Security has been notified. Please follow verification protocol A." }

/-- The `"immigration-queue"` entry of `SCENARIOS`. -/
def immigrationQueueCfg : ScenarioCfg :=
  { table := "immigration_queue"
    label := "Immigration Queue Photo"
    fixedMessage := "Update noted: A photo of the immigration queue was received. Operations will adjust staffing to reduce wait times." }

/-- The `"tempered-passport"` entry of `SCENARIOS`. -/
def temperedPassportCfg : ScenarioCfg :=
  { table := "tempered_passport"
    label := "Tampered Passport"
    fixedMessage := "Alert received: A tampered passport was reported. Border control procedure B is now in effect." }

/-- The `SCENARIOS` registry, as an association list in object-key order. -/
def SCENARIOS : List (String × ScenarioCfg) :=
  [("tempered-id", temperedIdCfg),
   ("immigration-queue", immigrationQueueCfg),
   ("tempered-passport", temperedPassportCfg)]

/-- The keys of `SCENARIOS` (JS `Object.keys`) in insertion order. -/
def scenarioKeys : List String := SCENARIOS.map Prod.fst

/-- The `detectScenario` function of `server.js`: lowercase the text, check the three
keyword substrings in priority order, then fall back to scanning the
registry keys, returning `none` when nothing matches. -/
def detectScenario (text : String) : Option String :=
  let s := lowerStr text
  if strContains s "passport" then some "tempered-passport"
  else if strContains s "queue" then some "immigration-queue"
  else if strContains s "id" then some "tempered-id"
  else scenarioKeys.find? (fun k => decide (strContains s k))

/-- Spec-side restatement of the Scenario Detector contract (spec section 4.4):
case-insensitive substring matching with the fixed priority list
passport, queue, id, then the registered scenario keys verbatim, first
match wins, absent otherwise. -/
def detectSpecSide (text : String) : Option String :=
  let s := lowerStr text
  if strContains s "passport" then some "tempered-passport"
  else if strContains s "queue" then some "immigration-queue"
  else if strContains s "id" then some "tempered-id"
  else scenarioKeys.find? (fun k => decide (strContains s k))

/-- Variant of `detectScenario` restricted to the three keyword checks only, with the
fallback loop over registry keys replaced by an immediate `none`. -/
def detectKeywordsOnly (text : String) : Option String :=
  let s := lowerStr text
  if strContains s "passport" then some "tempered-passport"
  else if strContains s "queue" then some "immigration-queue"
  else if strContains s "id" then some "tempered-id"
  else none

/-- A row of one of the three per-scenario incident tables. -/
structure IncidentRow where
  createdAt : Nat
  filePath : String
deriving DecidableEq

/-- A row of the shared `notifications` table. -/
structure NotifRow where
  createdAt : Nat
  scenario : String
  message : String
deriving DecidableEq

/-- The SQLite database: the three incident tables plus the notification
log, each in ascending rowid (insertion) order. -/
structure Store where
  tempered_id : List IncidentRow
  immigration_queue : List IncidentRow
  tempered_passport : List IncidentRow
  notifications : List NotifRow
deriving DecidableEq

/-- Resolve a table name (as interpolated into the SQL strings) to its rows. -/
def Store.table (st : Store) : String → List IncidentRow
  | "tempered_id" => st.tempered_id
  | "immigration_queue" => st.immigration_queue
  | "tempered_passport" => st.tempered_passport
  | _ => []

/-- The SQL `INSERT INTO <table> (created_at, file_path) VALUES (?, ?)`: append a row. -/
def Store.insertIncident (st : Store) (t : String) (r : IncidentRow) : Store :=
  match t with
  | "tempered_id" => { st with tempered_id := st.tempered_id ++ [r] }
  | "immigration_queue" => { st with immigration_queue := st.immigration_queue ++ [r] }
  | "tempered_passport" => { st with tempered_passport := st.tempered_passport ++ [r] }
  | _ => st

/-- Replace a table wholesale (used for `DELETE FROM <table>`). -/
def Store.setTable (st : Store) (t : String) (rows : List IncidentRow) : Store :=
  match t with
  | "tempered_id" => { st with tempered_id := rows }
  | "immigration_queue" => { st with immigration_queue := rows }
  | "tempered_passport" => { st with tempered_passport := rows }
  | _ => st

/-- The KPI record returned by `getKpisForTable`. -/
structure Kpis where
  totalReports : Nat
  reportsToday : Nat
  lastReportTime : Option Nat
deriving DecidableEq

/-- The SQL `SELECT created_at FROM <table> ORDER BY created_at DESC LIMIT 1`: the
largest `created_at` of the table, or `none` when it is empty. -/
def lastCreated : List IncidentRow → Option Nat
  | [] => none
  | r :: rs =>
    match lastCreated rs with
    | none => some r.createdAt
    | some m => some (Nat.max r.createdAt m)

/-- The `getKpisForTable` helper of `server.js`: `now` is the request instant and
`sod` the local start of day computed with `setHours(0,0,0,0)`; the today
count uses the inclusive SQL range `created_at >= sod AND created_at <= now`. -/
def getKpisForTable (st : Store) (table : String) (now sod : Nat) : Kpis :=
  let rows := st.table table
  { totalReports := rows.length
    reportsToday := (rows.filter (fun r => decide (sod ≤ r.createdAt ∧ r.createdAt ≤ now))).length
    lastReportTime := lastCreated rows }

/-- Property names every JS object literal inherits from
`Object.prototype`; for these keys `SCENARIOS[key]` is a truthy function
or object rather than `undefined`, although the key is not registered. -/
def protoKeys : List String :=
  ["constructor", "hasOwnProperty", "isPrototypeOf", "propertyIsEnumerable",
   "toLocaleString", "toString", "valueOf", "__proto__",
   "__defineGetter__", "__defineSetter__", "__lookupGetter__", "__lookupSetter__"]

/-- Result of the JS property access `SCENARIOS[scenario]`: an own property
(a scenario configuration), a truthy value inherited from
`Object.prototype` (whose `.table` is `undefined`), or `undefined`. -/
inductive PropValue where
  | own (cfg : ScenarioCfg)
  | inherited
  | undefined
deriving DecidableEq

/-- The JS property access `SCENARIOS[k]`, prototype chain included. -/
def scenariosGet (k : String) : PropValue :=
  match SCENARIOS.lookup k with
  | some cfg => .own cfg
  | none => if protoKeys.contains k then .inherited else .undefined

/-- Outcome of the `/api/submit` route, mirroring its JSON responses. -/
inductive SubmitResult where
  | invalidScenario
  | photoRequired
  | dbInsertFailed
  | notifyInsertFailed
  | ok (scenario : String) (filePath : String) (chatbotMessage : String) (kpis : Kpis)
deriving DecidableEq

/-- The `/api/submit` handler: look up `SCENARIOS[scenario]` (prototype
chain included; only `undefined` fails the truthiness check), require an
uploaded photo, insert the incident row, insert the notification row,
then recompute KPIs. `incidentOk` and `notifyOk` are the success flags of
the two `db.run` inserts; a failed insert writes nothing and
short-circuits to the 500 response of its callback. For a
prototype-inherited key, `cfg.table` is `undefined`, so the incident
insert targets the nonexistent table `undefined` and always fails,
answering the insert error with nothing written. -/
def submit (st : Store) (scenario : String) (photo : Option String)
    (incidentOk notifyOk : Bool) (now sod : Nat) : SubmitResult × Store :=
  match scenariosGet scenario with
  | .undefined => (.invalidScenario, st)
  | .inherited =>
    match photo with
    | none => (.photoRequired, st)
    | some _ => (.dbInsertFailed, st)
  | .own cfg =>
    match photo with
    | none => (.photoRequired, st)
    | some fname =>
      let filePath := "/uploads/" ++ fname
      if incidentOk then
        let st1 := st.insertIncident cfg.table { createdAt := now, filePath := filePath }
        if notifyOk then
          let st2 := { st1 with notifications :=
            st1.notifications ++ [{ createdAt := now, scenario := scenario, message := cfg.fixedMessage }] }
          (.ok scenario filePath cfg.fixedMessage (getKpisForTable st2 cfg.table now sod), st2)
        else (.notifyInsertFailed, st1)
      else (.dbInsertFailed, st)

/-- Outcome of the `/api/clear` route. -/
inductive ClearResult where
  | invalidScenario
  | dbClearFailed
  | ok (scenario : String) (kpis : Kpis)
deriving DecidableEq

/-- The `/api/clear` handler: look up `SCENARIOS[scenario]` (prototype
chain included), empty the scenario's incident table (`incDelOk` is that
delete's success flag), then — best effort — delete the scenario's
notifications when `clearNotifs` is set (`notifDelOk` is that delete's
success flag; a failure there is only logged), and recompute KPIs. For a
prototype-inherited key, the delete targets the nonexistent table
`undefined` and always fails, answering the clear error with nothing
deleted. -/
def clear (st : Store) (scenario : String)
    (clearNotifs incDelOk notifDelOk : Bool) (now sod : Nat) : ClearResult × Store :=
  match scenariosGet scenario with
  | .undefined => (.invalidScenario, st)
  | .inherited => (.dbClearFailed, st)
  | .own cfg =>
    if incDelOk then
      let st1 := st.setTable cfg.table []
      let st2 :=
        if clearNotifs && notifDelOk then
          { st1 with notifications := st1.notifications.filter (fun n => !(n.scenario == scenario)) }
        else st1
      (.ok scenario (getKpisForTable st2 cfg.table now sod), st2)
    else (.dbClearFailed, st)

/-- Insert a row into a descending-by-`createdAt` list, keeping it sorted. -/
def insertDesc (r : NotifRow) : List NotifRow → List NotifRow
  | [] => [r]
  | x :: xs => if x.createdAt < r.createdAt then r :: x :: xs else x :: insertDesc r xs

/-- The SQL `ORDER BY created_at DESC`: sort the rows most recent first (insertion
sort; SQLite fixes no order among equal timestamps). -/
def sortByCreatedDesc : List NotifRow → List NotifRow
  | [] => []
  | r :: rs => insertDesc r (sortByCreatedDesc rs)

/-- The recent-activity query of `buildAlertsContext`: notifications,
filtered to the detected scenario when detection found one, ordered by
`created_at` descending, limited to 10 rows. -/
def recentRows (st : Store) (userMsg : String) : List NotifRow :=
  let rows :=
    match detectScenario userMsg with
    | some k => st.notifications.filter (fun n => n.scenario == k)
    | none => st.notifications
  (sortByCreatedDesc rows).take 10

/-- The per-scenario today count of `buildAlertsContext`:
`SELECT COUNT(*) FROM notifications WHERE scenario=<k> AND created_at >= <engine start of day>`.
`engineSod` stands for the value of the storage-engine day expression;
note the query has no upper bound on `created_at`. -/
def todayCount (st : Store) (k : String) (engineSod : Nat) : Nat :=
  (st.notifications.filter (fun n => n.scenario == k && decide (engineSod ≤ n.createdAt))).length

/-- Claim-side count for C8, following the words of the spec: notifications
of the scenario whose `createdAt` falls within the current calendar day,
taken as the inclusive interval `[dayStart, dayEnd]`. -/
def claimTodayCount (st : Store) (k : String) (dayStart dayEnd : Nat) : Nat :=
  (st.notifications.filter
    (fun n => n.scenario == k && decide (dayStart ≤ n.createdAt ∧ n.createdAt ≤ dayEnd))).length

/-- The whitespace class of the JS regex `\s`. -/
def isJsWs (c : Char) : Bool :=
  [' ', '\t', '\n', '\r', '\x0b', '\x0c', '\u00A0', '\u1680', '\u2028',
   '\u2029', '\u202F', '\u205F', '\u3000', '\uFEFF'].contains c
  || (decide ('\u2000' ≤ c) && decide (c ≤ '\u200A'))

/-- JS `.replace(/\s+/g, " ")`: collapse every maximal whitespace run to a
single space. -/
def collapseWs : List Char → List Char
  | [] => []
  | [c] => if isJsWs c then [' '] else [c]
  | c :: d :: rest =>
    if isJsWs c then
      if isJsWs d then collapseWs (d :: rest)
      else ' ' :: collapseWs (d :: rest)
    else c :: collapseWs (d :: rest)

/-- The JS pipeline `String(r.message).replace(/\s+/g, " ").slice(0, 180)`. -/
def processMessage (m : String) : String := String.mk ((collapseWs m.data).take 180)

/-- One bullet of the recent-activity list. -/
def renderLine (r : NotifRow) : String :=
  "- " ++ toString r.createdAt ++ " • " ++ r.scenario ++ " — " ++ processMessage r.message

/-- The recent-activity block: joined bullet lines, or the literal
placeholder when the joined text is empty (JS `lines || "(none)"`). -/
def renderRecent (rows : List NotifRow) : String :=
  let lines := String.intercalate "\n" (rows.map renderLine)
  if lines = "" then "(none)" else lines

/-- The full `[ALERTS SNAPSHOT]` block built by `buildAlertsContext`. -/
def contextText (st : Store) (userMsg : String) (engineSod : Nat) : String :=
  "[ALERTS SNAPSHOT]\nTotals: ID=" ++ toString st.tempered_id.length ++
  ", Passport=" ++ toString st.tempered_passport.length ++
  ", Queue=" ++ toString st.immigration_queue.length ++
  "\nToday:  ID=" ++ toString (todayCount st "tempered-id" engineSod) ++
  ", Passport=" ++ toString (todayCount st "tempered-passport" engineSod) ++
  ", Queue=" ++ toString (todayCount st "immigration-queue" engineSod) ++
  "\nRecent alerts:\n" ++ renderRecent (recentRows st userMsg) ++
  "\n[END SNAPSHOT]"

/-- C1: `detectScenario` performs deterministic, case-insensitive matching
against the fixed priority list passport, queue, id, then the registered
scenario keys verbatim, returning `none` when nothing matches; in
particular it maps "A passport queue issue" to the passport key and
"unrelated weather update" to `none`. -/
theorem detect_priority_matches_spec :
    (∀ t, detectScenario t = detectSpecSide t) ∧
    detectScenario "A passport queue issue" = some "tempered-passport" ∧
    detectScenario "unrelated weather update" = none :=
  ⟨fun _ => rfl, by decide, by decide⟩

/-- C10: the verbatim-key fallback loop of `detectScenario` is unreachable:
every registered key contains "passport", "queue" or "id" as a substring,
so the function agrees everywhere with the keyword checks alone. -/
theorem detect_fallback_unreachable (t : String) :
    detectScenario t = detectKeywordsOnly t := by
  unfold detectScenario detectKeywordsOnly
  by_cases h1 : strContains (lowerStr t) "passport"
  · simp [h1]
  by_cases h2 : strContains (lowerStr t) "queue"
  · simp [h1, h2]
  by_cases h3 : strContains (lowerStr t) "id"
  · simp [h1, h2, h3]
  simp only [if_neg h1, if_neg h2, if_neg h3]
  rw [List.find?_eq_none]
  intro k hk
  simp only [decide_eq_true_eq]
  intro hcon
  have hk3 : k = "tempered-id" ∨ k = "immigration-queue" ∨ k = "tempered-passport" := by
    simpa [scenarioKeys, SCENARIOS] using hk
  rcases hk3 with rfl | rfl | rfl
  · exact h3 (List.IsInfix.trans (by decide) hcon)
  · exact h2 (List.IsInfix.trans (by decide) hcon)
  · exact h1 (List.IsInfix.trans (by decide) hcon)

/-- Inverting a successful registry lookup: the key and configuration are
one of the three registered pairs. -/
theorem lookup_scenarios {s : String} {cfg : ScenarioCfg}
    (h : SCENARIOS.lookup s = some cfg) :
    (s = "tempered-id" ∧ cfg = temperedIdCfg) ∨
    (s = "immigration-queue" ∧ cfg = immigrationQueueCfg) ∨
    (s = "tempered-passport" ∧ cfg = temperedPassportCfg) := by
  by_cases h1 : s = "tempered-id"
  · subst h1
    have h0 : SCENARIOS.lookup "tempered-id" = some temperedIdCfg := by decide
    rw [h0] at h
    exact Or.inl ⟨rfl, (Option.some.inj h).symm⟩
  by_cases h2 : s = "immigration-queue"
  · subst h2
    have h0 : SCENARIOS.lookup "immigration-queue" = some immigrationQueueCfg := by decide
    rw [h0] at h
    exact Or.inr (Or.inl ⟨rfl, (Option.some.inj h).symm⟩)
  by_cases h3 : s = "tempered-passport"
  · subst h3
    have h0 : SCENARIOS.lookup "tempered-passport" = some temperedPassportCfg := by decide
    rw [h0] at h
    exact Or.inr (Or.inr ⟨rfl, (Option.some.inj h).symm⟩)
  have e1 : (s == "tempered-id") = false := beq_eq_false_iff_ne.mpr h1
  have e2 : (s == "immigration-queue") = false := beq_eq_false_iff_ne.mpr h2
  have e3 : (s == "tempered-passport") = false := beq_eq_false_iff_ne.mpr h3
  simp [SCENARIOS, List.lookup, e1, e2, e3] at h

/-- Appending a row at least as recent as every existing row makes its
timestamp the latest one. -/
theorem lastCreated_append_of_le (rows : List IncidentRow) (r : IncidentRow)
    (h : ∀ x ∈ rows, x.createdAt ≤ r.createdAt) :
    lastCreated (rows ++ [r]) = some r.createdAt := by
  induction rows with
  | nil => rfl
  | cons a as ih =>
    have ha : a.createdAt ≤ r.createdAt := h a (by simp)
    have ih2 := ih fun x hx => h x (by simp [hx])
    simp only [List.cons_append, lastCreated, List.append_eq]
    rw [ih2]
    simp [Nat.max_eq_right ha]

/-- C2: a successful submit with a valid attached file appends one row to
the scenario table: the recomputed KPIs show `totalReports` one higher
than before and `lastReportTime` equal to the stamped timestamp (given
that the clock did not run backwards, so existing rows are not newer). -/
theorem submit_success_increments
    (st : Store) (scenario f : String) (cfg : ScenarioCfg) (now sod : Nat)
    (hcfg : SCENARIOS.lookup scenario = some cfg)
    (hle : ∀ r ∈ st.table cfg.table, r.createdAt ≤ now) :
    (submit st scenario (some f) true true now sod).1
      = .ok scenario ("/uploads/" ++ f) cfg.fixedMessage
          (getKpisForTable (submit st scenario (some f) true true now sod).2 cfg.table now sod) ∧
    (getKpisForTable (submit st scenario (some f) true true now sod).2 cfg.table now sod).totalReports
      = (getKpisForTable st cfg.table now sod).totalReports + 1 ∧
    (getKpisForTable (submit st scenario (some f) true true now sod).2 cfg.table now sod).lastReportTime
      = some now := by
  rcases lookup_scenarios hcfg with ⟨rfl, rfl⟩ | ⟨rfl, rfl⟩ | ⟨rfl, rfl⟩ <;>
  · refine ⟨?_, ?_, ?_⟩
    · simp [submit, scenariosGet, hcfg, Store.insertIncident, temperedIdCfg, immigrationQueueCfg, temperedPassportCfg]
    · simp [submit, scenariosGet, hcfg, Store.insertIncident, getKpisForTable, Store.table, temperedIdCfg, immigrationQueueCfg, temperedPassportCfg]
    · simp only [submit, scenariosGet, hcfg, Store.insertIncident, getKpisForTable, Store.table, temperedIdCfg, immigrationQueueCfg, temperedPassportCfg]
      exact lastCreated_append_of_le _ _ (by simpa [Store.table, temperedIdCfg, immigrationQueueCfg, temperedPassportCfg] using hle)

/-- Witness for C2 at a concrete empty store. -/
theorem submit_success_increments_witness :
    (getKpisForTable (submit ⟨[], [], [], []⟩ "tempered-id" (some "p.jpg") true true 5 0).2
      "tempered_id" 5 0).lastReportTime = some 5 :=
  (submit_success_increments ⟨[], [], [], []⟩ "tempered-id" "p.jpg" temperedIdCfg 5 0
    (by decide) (by decide)).2.2

/-- C3: `reportsToday` is the count of rows whose `created_at` lies in the
inclusive window from the local start of day to now, never exceeds
`totalReports`, and equals it when every row lies in that window. -/
theorem kpis_reports_today_bounds (st : Store) (table : String) (now sod : Nat) :
    (getKpisForTable st table now sod).reportsToday
        = ((st.table table).filter (fun r => decide (sod ≤ r.createdAt ∧ r.createdAt ≤ now))).length ∧
    (getKpisForTable st table now sod).reportsToday ≤ (getKpisForTable st table now sod).totalReports ∧
    ((∀ r ∈ st.table table, sod ≤ r.createdAt ∧ r.createdAt ≤ now) →
      (getKpisForTable st table now sod).reportsToday
        = (getKpisForTable st table now sod).totalReports) := by
  refine ⟨rfl, List.length_filter_le _ _, fun h => ?_⟩
  simp only [getKpisForTable]
  rw [List.filter_eq_self.mpr fun a ha => by simpa using h a ha]

/-- Witness for C3 at a concrete one-row store created inside the day. -/
theorem kpis_reports_today_bounds_witness :
    (getKpisForTable ⟨[{ createdAt := 3, filePath := "f" }], [], [], []⟩ "tempered_id" 10 0).reportsToday
      = (getKpisForTable ⟨[{ createdAt := 3, filePath := "f" }], [], [], []⟩ "tempered_id" 10 0).totalReports :=
  (kpis_reports_today_bounds ⟨[{ createdAt := 3, filePath := "f" }], [], [], []⟩
    "tempered_id" 10 0).2.2 (by decide)

/-- C4 counterexample: "constructor" is not a registered scenario key, yet
`SCENARIOS["constructor"]` finds the truthy constructor function
inherited from `Object.prototype`, so a photo-bearing submit passes
validation, attempts the incident insert against the nonexistent table
`undefined`, and answers the insert error — not the invalid-scenario
error the claim requires for every unregistered key. The store is still
returned unchanged. -/
theorem submit_proto_key_not_invalid :
    SCENARIOS.lookup "constructor" = none ∧
    submit ⟨[], [], [], []⟩ "constructor" (some "p.jpg") true true 5 0
      = (.dbInsertFailed, ⟨[], [], [], []⟩) ∧
    (submit ⟨[], [], [], []⟩ "constructor" (some "p.jpg") true true 5 0).1
      ≠ .invalidScenario := by
  decide

/-- C4 (amended): a submit failing validation leaves the store — incident
tables and notification log alike — untouched, and the error depends on
the key: an unregistered key that is not an `Object.prototype` property
name answers the invalid-scenario error before any write is attempted; an
unregistered but prototype-inherited key passes the truthiness check and,
with a photo, fails the incident insert against the nonexistent table
`undefined` (a storage error, nothing written) or, without a photo,
answers the missing-attachment error; a registered key with no attached
file answers the missing-attachment error before any write. -/
theorem submit_validation_no_writes (st : Store) (scenario : String) (photo : Option String)
    (iOk nOk : Bool) (now sod : Nat) :
    (scenariosGet scenario = .undefined →
       submit st scenario photo iOk nOk now sod = (.invalidScenario, st)) ∧
    (scenariosGet scenario = .inherited →
       submit st scenario none iOk nOk now sod = (.photoRequired, st) ∧
       ∀ f, submit st scenario (some f) iOk nOk now sod = (.dbInsertFailed, st)) ∧
    (∀ cfg, scenariosGet scenario = .own cfg →
       submit st scenario none iOk nOk now sod = (.photoRequired, st)) := by
  refine ⟨fun h => ?_, fun h => ⟨?_, fun f => ?_⟩, fun cfg h => ?_⟩ <;> simp [submit, h]

/-- Witness for C4 at a concrete unregistered, non-prototype key. -/
theorem submit_validation_no_writes_witness :
    submit ⟨[], [], [], []⟩ "weather" none true true 0 0 = (.invalidScenario, ⟨[], [], [], []⟩) :=
  (submit_validation_no_writes ⟨[], [], [], []⟩ "weather" none true true 0 0).1 (by decide)

/-- C5: when the incident insert fails, submit aborts with the insert error
and the store is untouched, so no notification is written; when the
incident insert succeeds and the notification insert fails, the error is
surfaced while the incident row stays: the notification log is unchanged
and the scenario table has exactly the new row appended. -/
theorem submit_partial_failure_semantics
    (st : Store) (scenario f : String) (cfg : ScenarioCfg) (nOk : Bool) (now sod : Nat)
    (hcfg : SCENARIOS.lookup scenario = some cfg) :
    (submit st scenario (some f) false nOk now sod = (.dbInsertFailed, st)) ∧
    (submit st scenario (some f) true false now sod
        = (.notifyInsertFailed, st.insertIncident cfg.table ⟨now, "/uploads/" ++ f⟩)) ∧
    ((st.insertIncident cfg.table ⟨now, "/uploads/" ++ f⟩).notifications = st.notifications) ∧
    ((st.insertIncident cfg.table ⟨now, "/uploads/" ++ f⟩).table cfg.table
        = st.table cfg.table ++ [⟨now, "/uploads/" ++ f⟩]) := by
  rcases lookup_scenarios hcfg with ⟨rfl, rfl⟩ | ⟨rfl, rfl⟩ | ⟨rfl, rfl⟩ <;>
    exact ⟨by simp [submit, scenariosGet, hcfg, temperedIdCfg, immigrationQueueCfg, temperedPassportCfg], by simp [submit, scenariosGet, hcfg, temperedIdCfg, immigrationQueueCfg, temperedPassportCfg],
      by simp [Store.insertIncident, temperedIdCfg, immigrationQueueCfg, temperedPassportCfg], by simp [Store.insertIncident, Store.table, temperedIdCfg, immigrationQueueCfg, temperedPassportCfg]⟩

/-- Witness for C5: failed incident insert at a concrete store. -/
theorem submit_partial_failure_semantics_witness :
    submit ⟨[], [], [], []⟩ "tempered-id" (some "p.jpg") false true 5 0
      = (.dbInsertFailed, ⟨[], [], [], []⟩) :=
  (submit_partial_failure_semantics ⟨[], [], [], []⟩ "tempered-id" "p.jpg" temperedIdCfg
    true 5 0 (by decide)).1

/-- C9: a clear whose incident-table delete succeeds always answers ok with
recomputed metrics `totalReports = 0`, `reportsToday = 0` and
`lastReportTime = none`, whatever the notification-delete flag and its
best-effort outcome. -/
theorem clear_resets_metrics
    (st : Store) (scenario : String) (cfg : ScenarioCfg)
    (clearNotifs notifDelOk : Bool) (now sod : Nat)
    (hcfg : SCENARIOS.lookup scenario = some cfg) :
    (clear st scenario clearNotifs true notifDelOk now sod).1
      = .ok scenario
          (getKpisForTable (clear st scenario clearNotifs true notifDelOk now sod).2 cfg.table now sod) ∧
    getKpisForTable (clear st scenario clearNotifs true notifDelOk now sod).2 cfg.table now sod
      = { totalReports := 0, reportsToday := 0, lastReportTime := none } := by
  rcases lookup_scenarios hcfg with ⟨rfl, rfl⟩ | ⟨rfl, rfl⟩ | ⟨rfl, rfl⟩ <;>
    cases hcn : clearNotifs && notifDelOk <;>
      exact ⟨by simp [clear, scenariosGet, hcfg, hcn, temperedIdCfg, immigrationQueueCfg, temperedPassportCfg],
        by simp [clear, scenariosGet, hcfg, hcn, getKpisForTable, Store.table, Store.setTable, lastCreated, temperedIdCfg, immigrationQueueCfg, temperedPassportCfg]⟩

/-- Witness for C9 at a concrete store, with the notification delete failing. -/
theorem clear_resets_metrics_witness :
    getKpisForTable
        (clear ⟨[{ createdAt := 3, filePath := "f" }], [], [],
          [{ createdAt := 3, scenario := "tempered-id", message := "m" }]⟩
          "tempered-id" true true false 5 0).2 "tempered_id" 5 0
      = { totalReports := 0, reportsToday := 0, lastReportTime := none } :=
  (clear_resets_metrics ⟨[{ createdAt := 3, filePath := "f" }], [], [],
      [{ createdAt := 3, scenario := "tempered-id", message := "m" }]⟩
    "tempered-id" temperedIdCfg true false 5 0 (by decide)).2

/-- Membership in an insertion is membership in the parts. -/
theorem mem_insertDesc (r : NotifRow) (l : List NotifRow) (b : NotifRow) :
    b ∈ insertDesc r l ↔ b = r ∨ b ∈ l := by
  induction l with
  | nil => simp [insertDesc]
  | cons x xs ih =>
    by_cases hlt : x.createdAt < r.createdAt
    · simp [insertDesc, hlt]
    · simp only [insertDesc, if_neg hlt, List.mem_cons, ih]
      tauto

/-- Inserting into a descending list keeps it descending. -/
theorem pairwise_insertDesc (r : NotifRow) (l : List NotifRow)
    (h : l.Pairwise (fun a b => b.createdAt ≤ a.createdAt)) :
    (insertDesc r l).Pairwise (fun a b => b.createdAt ≤ a.createdAt) := by
  induction l with
  | nil => simp [insertDesc]
  | cons x xs ih =>
    cases h with
    | cons hx hxs =>
      by_cases hlt : x.createdAt < r.createdAt
      · simp only [insertDesc, if_pos hlt]
        refine List.Pairwise.cons ?_ (List.Pairwise.cons hx hxs)
        intro b hb
        rcases List.mem_cons.mp hb with rfl | hb2
        · omega
        · have := hx b hb2
          omega
      · simp only [insertDesc, if_neg hlt]
        refine List.Pairwise.cons ?_ (ih hxs)
        intro b hb
        rcases (mem_insertDesc r xs b).mp hb with rfl | hb3
        · omega
        · exact hx b hb3

/-- The descending sort used for the recent-activity query is sorted:
`createdAt` never increases along the list. -/
theorem sortByCreatedDesc_pairwise (l : List NotifRow) :
    (sortByCreatedDesc l).Pairwise (fun a b => b.createdAt ≤ a.createdAt) := by
  induction l with
  | nil => simp [sortByCreatedDesc]
  | cons r rs ih => exact pairwise_insertDesc r (sortByCreatedDesc rs) ih

/-- The descending sort is a permutation as far as membership goes. -/
theorem mem_sortByCreatedDesc (l : List NotifRow) (b : NotifRow) :
    b ∈ sortByCreatedDesc l ↔ b ∈ l := by
  induction l with
  | nil => simp [sortByCreatedDesc]
  | cons r rs ih => simp [sortByCreatedDesc, mem_insertDesc, ih]

/-- Elements of the sorted, truncated recent list come from the input list. -/
theorem mem_of_mem_sortTake {l : List NotifRow} {r : NotifRow}
    (h : r ∈ (sortByCreatedDesc l).take 10) : r ∈ l :=
  (mem_sortByCreatedDesc l r).mp (List.mem_of_mem_take h)

/-- C6: the recent-activity list holds at most 10 entries, is non-increasing
in `createdAt`, and draws from the notification log, restricted to the
detected scenario whenever detection found one. -/
theorem recent_rows_bounded (st : Store) (msg : String) :
    (recentRows st msg).length ≤ 10 ∧
    (recentRows st msg).Pairwise (fun a b => b.createdAt ≤ a.createdAt) ∧
    (∀ r ∈ recentRows st msg, r ∈ st.notifications) ∧
    (∀ k, detectScenario msg = some k → ∀ r ∈ recentRows st msg, r.scenario = k) := by
  refine ⟨?_, ?_, ?_, ?_⟩
  · cases hd : detectScenario msg <;>
      simp only [recentRows, hd] <;> exact List.length_take_le _ _
  · cases hd : detectScenario msg <;>
      simp only [recentRows, hd] <;> exact (sortByCreatedDesc_pairwise _).take
  · intro r hr
    cases hd : detectScenario msg <;> simp only [recentRows, hd] at hr
    · exact mem_of_mem_sortTake hr
    · exact List.mem_of_mem_filter (mem_of_mem_sortTake hr)
  · intro k hk r hr
    simp only [recentRows, hk] at hr
    have := List.of_mem_filter (mem_of_mem_sortTake hr)
    simpa using this

/-- Witness for C6 at a concrete store and a scenario-bearing utterance. -/
theorem recent_rows_bounded_witness :
    (⟨7, "tempered-passport", "m"⟩ : NotifRow).scenario = "tempered-passport" :=
  (recent_rows_bounded ⟨[], [], [], [⟨7, "tempered-passport", "m"⟩]⟩ "passport lost").2.2.2
    "tempered-passport" (by decide) ⟨7, "tempered-passport", "m"⟩ (by decide)

/-- Every whitespace character surviving `collapseWs` is a plain space. -/
theorem collapseWs_mem_ws_eq_space :
    ∀ (l : List Char) (c : Char), c ∈ collapseWs l → isJsWs c = true → c = ' '
  | [], c, hc, _ => by simp [collapseWs] at hc
  | [a], c, hc, hws => by
    by_cases ha : isJsWs a
    · simp only [collapseWs, if_pos ha, List.mem_singleton] at hc
      exact hc
    · simp only [collapseWs, if_neg ha, List.mem_singleton] at hc
      exact absurd (hc ▸ hws) (by simp [ha])
  | a :: b :: rest, c, hc, hws => by
    by_cases ha : isJsWs a
    · by_cases hb : isJsWs b
      · rw [show collapseWs (a :: b :: rest) = collapseWs (b :: rest) by
          simp [collapseWs, ha, hb]] at hc
        exact collapseWs_mem_ws_eq_space (b :: rest) c hc hws
      · rw [show collapseWs (a :: b :: rest) = ' ' :: collapseWs (b :: rest) by
          simp [collapseWs, ha, hb]] at hc
        rcases List.mem_cons.mp hc with rfl | hc2
        · rfl
        · exact collapseWs_mem_ws_eq_space (b :: rest) c hc2 hws
    · rw [show collapseWs (a :: b :: rest) = a :: collapseWs (b :: rest) by
        simp [collapseWs, ha]] at hc
      rcases List.mem_cons.mp hc with rfl | hc2
      · exact absurd hws (by simp [ha])
      · exact collapseWs_mem_ws_eq_space (b :: rest) c hc2 hws

/-- Applying `collapseWs` to a list starting with a non-whitespace character keeps
that character and recurses. -/
theorem collapseWs_cons_not_ws (b : Char) (rest : List Char) (hb : isJsWs b = false) :
    collapseWs (b :: rest) = b :: collapseWs rest := by
  cases rest with
  | nil => simp [collapseWs, hb]
  | cons r rs => simp [collapseWs, hb]

/-- The output of `collapseWs` never has two adjacent whitespace characters. -/
theorem collapseWs_chain :
    ∀ l : List Char, (collapseWs l).Chain' (fun a b => isJsWs a = true → isJsWs b = false)
  | [] => by simp [collapseWs]
  | [a] => by by_cases ha : isJsWs a <;> simp [collapseWs, ha]
  | a :: b :: rest => by
    have ih := collapseWs_chain (b :: rest)
    by_cases ha : isJsWs a
    · by_cases hb : isJsWs b
      · rw [show collapseWs (a :: b :: rest) = collapseWs (b :: rest) by
          simp [collapseWs, ha, hb]]
        exact ih
      · rw [show collapseWs (a :: b :: rest) = ' ' :: collapseWs (b :: rest) by
          simp [collapseWs, ha, hb]]
        refine List.chain'_cons'.mpr ⟨?_, ih⟩
        intro y hy _
        rw [collapseWs_cons_not_ws b rest (by simpa using hb)] at hy
        simp only [List.head?_cons, Option.mem_def, Option.some.injEq] at hy
        exact hy ▸ (by simpa using hb)
    · rw [collapseWs_cons_not_ws a (b :: rest) (by simpa using ha)]
      refine List.chain'_cons'.mpr ⟨?_, ih⟩
      intro y _ hwsa
      exact absurd hwsa (by simp [ha])

/-- A string is a substring of any string it is sandwiched into. -/
theorem strContains_append (a b c : String) : strContains (a ++ b ++ c) b := by
  simp only [strContains, String.data_append]
  exact List.infix_append a.data b.data c.data

/-- The recent-activity block of an empty row list is the placeholder. -/
theorem renderRecent_nil : renderRecent [] = "(none)" := rfl

/-- C7: every rendered recent-activity message is the whitespace-collapsed
text cut to at most 180 characters — no whitespace other than single
spaces survives, never two adjacent — and an empty recent-activity query
renders the literal "(none)" placeholder into the snapshot block. -/
theorem rendered_messages_and_placeholder :
    (∀ m : String, (processMessage m).length ≤ 180 ∧
      (∀ c ∈ (processMessage m).data, isJsWs c = true → c = ' ') ∧
      (processMessage m).data.Chain' (fun a b => isJsWs a = true → isJsWs b = false)) ∧
    (∀ (st : Store) (msg : String) (engineSod : Nat), recentRows st msg = [] →
      renderRecent (recentRows st msg) = "(none)" ∧
      strContains (contextText st msg engineSod) "(none)") := by
  constructor
  · intro m
    refine ⟨List.length_take_le _ _, ?_, ?_⟩
    · intro c hc hws
      exact collapseWs_mem_ws_eq_space m.data c (List.mem_of_mem_take hc) hws
    · exact (collapseWs_chain m.data).take _
  · intro st msg sod h
    refine ⟨by rw [h]; exact renderRecent_nil, ?_⟩
    unfold contextText
    rw [h, renderRecent_nil]
    exact strContains_append _ _ _

/-- Witness for C7 at a concrete empty store. -/
theorem rendered_messages_and_placeholder_witness :
    strContains (contextText ⟨[], [], [], []⟩ "hello" 0) "(none)" :=
  ((rendered_messages_and_placeholder).2 ⟨[], [], [], []⟩ "hello" 0 (by decide)).2

/-- C8 counterexample: take the current day to be the interval from 0 to
100. A notification stamped 200 — after the end of that day — is still
counted by the code, because the query has no upper time bound, so the
today count is not the count of notifications created within the day. -/
theorem today_count_not_within_day :
    todayCount ⟨[], [], [], [⟨200, "tempered-id", "m"⟩]⟩ "tempered-id" 0 = 1 ∧
    claimTodayCount ⟨[], [], [], [⟨200, "tempered-id", "m"⟩]⟩ "tempered-id" 0 100 = 0 := by
  decide

/-- C8 (amended): the today counts are computed from the notification log
alone — the incident tables are ignored — counting the notifications for
the scenario whose `createdAt` is at or after the storage-engine start of
the current day, with no upper bound; when no notification is stamped
after the end of the day, this agrees with the within-day count. -/
theorem today_counts_from_notification_log
    (st : Store) (k : String) (engineSod dayEnd : Nat) (l1 l2 l3 : List IncidentRow) :
    todayCount { st with tempered_id := l1, immigration_queue := l2, tempered_passport := l3 }
        k engineSod = todayCount st k engineSod ∧
    todayCount st k engineSod
      = (st.notifications.filter (fun n => n.scenario == k && decide (engineSod ≤ n.createdAt))).length ∧
    ((∀ n ∈ st.notifications, n.createdAt ≤ dayEnd) →
      todayCount st k engineSod = claimTodayCount st k engineSod dayEnd) := by
  refine ⟨rfl, rfl, fun h => ?_⟩
  unfold todayCount claimTodayCount
  congr 1
  apply List.filter_congr
  intro n hn
  have hd : n.createdAt ≤ dayEnd := h n hn
  have hb : decide (engineSod ≤ n.createdAt ∧ n.createdAt ≤ dayEnd)
      = decide (engineSod ≤ n.createdAt) := by
    by_cases hs : engineSod ≤ n.createdAt <;> simp [hs, hd]
  rw [hb]

/-- Witness for C8 at a concrete store whose notifications all lie in the day. -/
theorem today_counts_from_notification_log_witness :
    todayCount ⟨[], [], [], [⟨5, "tempered-id", "m"⟩]⟩ "tempered-id" 0
      = claimTodayCount ⟨[], [], [], [⟨5, "tempered-id", "m"⟩]⟩ "tempered-id" 0 100 :=
  (today_counts_from_notification_log ⟨[], [], [], [⟨5, "tempered-id", "m"⟩]⟩
    "tempered-id" 0 100 [] [] []).2.2 (by decide)

end GdrfaDemo
